import Mathlib

/-!
Verification of the Veracruz host-side orchestrator (Sinaloa) against its
natural-language specification.

The definitions below are a shallow embedding of the Rust sources:
  - src/sinaloa/src/sinaloa_nitro.rs   (the Nitro enclave driver)
  - src/sinaloa-test/src/main.rs       (the integration-test Broker harness)

Machine bytes are modelled as `Nat` (each in the range [0, 256)), byte
buffers as `List Nat`, and fallible Rust functions returning
`Result<T, SinaloaError>` as `Except SinaloaError T`.  Interaction with the
enclave over the vsock channel is modelled by an explicit script of reply
messages consumed in order: each `receive_buffer` call takes the next
message of the script, and exhaustion of the script stands for a broken
channel.  Functions that both send and receive also return the list of
request messages they sent, in order.
-/

namespace Veracruz

/-- Status codes of the Nitro enclave runtime (veracruz_utils::NitroStatus). -/
inductive NitroStatus where
  | Success
  | Fail
  | Unimplemented
deriving DecidableEq, Repr

/-- The tagged host-to-enclave / enclave-to-host message union
(veracruz_utils::RuntimeManagerMessage).  Byte payloads are `List Nat`. -/
inductive RuntimeManagerMessage where
  | Initialize (policy_json : String)
  | GetEnclaveCert
  | GetEnclaveName
  | GetPSAAttestationToken (challenge : List Nat)
  | NewTLSSession
  | CloseTLSSession (session_id : Nat)
  | SendTLSData (session_id : Nat) (bytes : List Nat)
  | GetTLSData (session_id : Nat)
  | GetTLSDataNeeded (session_id : Nat)
  | ResetEnclave
  | Status (status : NitroStatus)
  | EnclaveCert (cert : List Nat)
  | EnclaveName (name : String)
  | PSAAttestationToken (token : List Nat) (pubkey : List Nat) (device_id : Int)
  | TLSSession (session_id : Nat)
  | TLSData (bytes : List Nat) (still_alive : Bool)
  | TLSDataNeeded (needed : Bool)
deriving DecidableEq, Repr

/-- Response status of the client-facing wire protocol
(colima::ResponseStatus).  The sources only distinguish SUCCESS from
everything else; FAIL and UNSET stand for the non-success codes. -/
inductive ResponseStatus where
  | SUCCESS
  | FAIL
  | UNSET
deriving DecidableEq, Repr

/-- The error type surfaced by the Broker (sinaloa::SinaloaError), restricted
to the variants the embedded functions construct.

`MismatchError` carries byte-vector payloads, exactly as the Rust enum does;
`MismatchStrError` stands for the same Rust variant at the two call sites
that store the UTF-8 bytes of strings (the model keeps the strings
themselves, a lossless encoding).  `TransportError` models an I/O failure of
the enclave channel (send_buffer/receive_buffer failing), which in the Rust
sources surfaces as a wrapped NitroError. -/
inductive SinaloaError where
  | MissingFieldError (field : String)
  | MismatchError (vari : String) (received : List Nat) (expected : List Nat)
  | MismatchStrError (vari : String) (received : String) (expected : String)
  | ResponseError (ctx : String) (status : ResponseStatus)
  | NitroStatus (status : NitroStatus)
  | InvalidRuntimeManagerMessage (msg : RuntimeManagerMessage)
  | DirectStrError (msg : String)
  | TransportError
deriving DecidableEq, Repr

/-- True exactly on the `Status` variant; used to phrase the wildcard
branches of the Rust `match` expressions. -/
def RuntimeManagerMessage.isStatus : RuntimeManagerMessage → Bool
  | .Status _ => true
  | _ => false

/-- Rust slice indexing `buf[a..b]`, as used on the attestation payload. -/
def subslice (buf : List Nat) (a b : Nat) : List Nat :=
  (buf.drop a).take (b - a)

/-- sinaloa-test/src/main.rs, `attestation_flow` (lines 1641-1676), the part
after the verifier reply has been base64-decoded.  `challenge` is the
32-byte random challenge drawn at line 1646, `hash_bin` is the hex-decoded
expected enclave measurement (line 1666), and `received_payload` is the
decoded verifier reply.  Note that the source labels BOTH mismatch errors
with the string "attestation_flow challenge" (lines 1661 and 1669). -/
def attestation_flow (challenge : List Nat) (hash_bin : List Nat)
    (received_payload : List Nat) : Except SinaloaError (List Nat) :=
  if challenge ≠ subslice received_payload 8 40 then
    .error (.MismatchError "attestation_flow challenge"
      (subslice received_payload 8 40) challenge)
  else if hash_bin ≠ subslice received_payload 47 79 then
    .error (.MismatchError "attestation_flow challenge"
      (subslice received_payload 47 79) hash_bin)
  else
    .ok (subslice received_payload 86 118)

/-- sinaloa-test/src/main.rs, `test_template` lines 753-759: the `and_then`
guard applied to the session id returned by `new_tls_session`. -/
def test_template_session_check (id : Nat) : Except SinaloaError Nat :=
  if id = 0 then .error (.MissingFieldError "client_session_id")
  else .ok id

/-- sinaloa-test/src/main.rs, `init_sinaloa_and_tls_session` lines
1270-1276: the `and_then` guard on the freshly allocated session id (the
returned Sinaloa handle is elided; only the id check is modelled). -/
def init_sinaloa_and_tls_session (session_id : Nat) : Except SinaloaError Nat :=
  if session_id ≠ 0 then .ok session_id
  else .error (.MissingFieldError "Session id")

/-- Lowercase hexadecimal digit for a nibble, as produced by hex::encode. -/
def hexDigit (n : Nat) : Char :=
  if n < 10 then Char.ofNat (48 + n) else Char.ofNat (87 + n)

/-- Two lowercase hex characters for one byte, high nibble first. -/
def hex_encode_byte (b : Nat) : List Char :=
  [hexDigit (b % 256 / 16), hexDigit (b % 256 % 16)]

/-- hex::encode: lowercase hex encoding of a byte buffer. -/
def hex_encode (bytes : List Nat) : String :=
  String.mk (bytes.flatMap hex_encode_byte)

/-- sinaloa-test/src/main.rs, `read_policy` (lines 1250-1259): the policy
digest string computed from the raw policy bytes,
`hex::encode(SHA-256(policy_json))`.  The SHA-256 compression itself is a
library call (ring::digest) and is passed in as a function parameter. -/
def read_policy_hash (sha256 : List Nat → List Nat) (policy_json : List Nat) : String :=
  hex_encode (sha256 policy_json)

/-- The fields of a parsed `colima` response that `check_policy_hash`
consumes: the status code and the policy-hash field decoded as a UTF-8
string (protobuf getters default to the empty value when absent). -/
structure PolicyHashResponse where
  status : ResponseStatus
  policy_hash : String
deriving DecidableEq, Repr

/-- sinaloa-test/src/main.rs, `check_policy_hash` (lines 1303-1338), applied
to the parsed reply of a RequestPolicyDigest exchange. -/
def check_policy_hash (expected_policy_hash : String) (r : PolicyHashResponse) :
    Except SinaloaError Unit :=
  if r.status ≠ .SUCCESS then
    .error (.ResponseError "check_policy_hash parse_mexico_city_response" r.status)
  else if r.policy_hash = expected_policy_hash then
    .ok ()
  else
    .error (.MismatchStrError "request_policy_hash" r.policy_hash expected_policy_hash)

/-- sinaloa-test/src/main.rs lines 52-56: the wire encoding of the enclave
phases, one byte each. -/
def ENCLAVE_STATE_INITIAL : Nat := 0

/-- Phase byte for the data-loading state (main.rs line 53). -/
def ENCLAVE_STATE_DATA_SOURCES_LOADING : Nat := 1

/-- Phase byte for the stream-loading state (main.rs line 54, source name
kept including its typo). -/
def ENCLAVE_STATE_STREAM_SOURCE_SLOADING : Nat := 2

/-- Phase byte for the ready-to-execute state (main.rs line 55). -/
def ENCLAVE_STATE_READY_TO_EXECUTE : Nat := 3

/-- Phase byte for the finished state (main.rs line 56). -/
def ENCLAVE_STATE_FINISHED_EXECUTING : Nat := 4

/-- The fields of a parsed enclave-state reply that `check_enclave_state`
consumes: `none` when the reply has no state field (`has_state()` false),
otherwise the state byte vector. -/
structure StateResponse where
  state : Option (List Nat)
deriving DecidableEq, Repr

/-- sinaloa-test/src/main.rs, `check_enclave_state` (lines 1449-1480),
applied to the parsed reply of a RequestEnclaveState exchange. -/
def check_enclave_state (expecting : Nat) (r : StateResponse) :
    Except SinaloaError Unit :=
  match r.state with
  | some st =>
      if st = [expecting] then .ok ()
      else .error (.MismatchError "parsed.get_state().get_state().to_vec()" st [expecting])
  | none => .error (.MissingFieldError "enclave state in response")

/-- sinaloa_nitro.rs, `close` (lines 260-275): sends ResetEnclave and
inspects the single reply message. -/
def close (reply : RuntimeManagerMessage) : Except SinaloaError Bool :=
  match reply with
  | .Status status =>
      match status with
      | .Success => .ok true
      | s => .error (.NitroStatus s)
  | m => .error (.InvalidRuntimeManagerMessage m)

/-- sinaloa_nitro.rs, `Drop for SinaloaNitro` (lines 278-285): calls
`close` and swallows a failure, logging it.  The returned list is the log:
the swallowed error if any.  Drop itself always returns. -/
def drop_close (reply : RuntimeManagerMessage) : List SinaloaError :=
  match close reply with
  | .error err => [err]
  | .ok _ => []

/-- sinaloa_nitro.rs, `close_tls_session` (lines 194-207): sends
CloseTLSSession(session_id) and inspects the single reply message.  Any
`Status` reply, success or failure, yields `Ok(())`. -/
def close_tls_session (_session_id : Nat) (reply : RuntimeManagerMessage) :
    Except SinaloaError Unit :=
  match reply with
  | .Status _ => .ok ()
  | _ => .error (.NitroStatus .Fail)

/-- sinaloa_nitro.rs, `tls_data_needed` (lines 315-329): sends
GetTLSDataNeeded(session_id) and inspects the single reply message. -/
def tls_data_needed (_session_id : Nat) (reply : RuntimeManagerMessage) :
    Except SinaloaError Bool :=
  match reply with
  | .TLSDataNeeded needed => .ok needed
  | _ => .error (.NitroStatus .Fail)

/-- The drain loop of sinaloa_nitro.rs `tls_data` (lines 230-248): while
`tls_data_needed` answers true, send GetTLSData and accumulate the TLSData
replies, updating the alive flag from each.  The first component is the
loop's outcome `(active_flag, accumulated frames)`; the second component is
the list of requests sent to the enclave.  The reply script exhausting
mid-protocol stands for the channel breaking. -/
def tls_data_drain (sid : Nat) :
    List RuntimeManagerMessage → Bool → List (List Nat) →
      Except SinaloaError (Bool × List (List Nat)) × List RuntimeManagerMessage
  | [], _, _ =>
      (.error .TransportError, [.GetTLSDataNeeded sid])
  | .TLSDataNeeded false :: _, flag, acc =>
      (.ok (flag, acc), [.GetTLSDataNeeded sid])
  | .TLSDataNeeded true :: .TLSData data alive :: rest, _, acc =>
      let r := tls_data_drain sid rest alive (acc ++ [data])
      (r.1, .GetTLSDataNeeded sid :: .GetTLSData sid :: r.2)
  | [.TLSDataNeeded true], _, _ =>
      (.error .TransportError, [.GetTLSDataNeeded sid, .GetTLSData sid])
  | .TLSDataNeeded true :: _ :: _, _, _ =>
      (.error (.NitroStatus .Fail), [.GetTLSDataNeeded sid, .GetTLSData sid])
  | _ :: _, _, _ =>
      (.error (.NitroStatus .Fail), [.GetTLSDataNeeded sid])

/-- sinaloa_nitro.rs, `tls_data` (lines 209-258): sends
SendTLSData(session_id, input), requires a Status(Success) reply, then runs
the drain loop; a non-empty accumulation is wrapped in `some`, an empty one
becomes `none`.  First component: the Rust return value; second component:
the requests sent to the enclave. -/
def tls_data (sid : Nat) (input : List Nat) (replies : List RuntimeManagerMessage) :
    Except SinaloaError (Bool × Option (List (List Nat))) × List RuntimeManagerMessage :=
  match replies with
  | [] => (.error .TransportError, [.SendTLSData sid input])
  | first :: rest =>
      match first with
      | .Status status =>
          match status with
          | .Success =>
              let r := tls_data_drain sid rest true []
              (match r.1 with
               | .ok (flag, arr) => .ok (flag, if arr.length > 0 then some arr else none)
               | .error e => .error e,
               .SendTLSData sid input :: r.2)
          | s => (.error (.NitroStatus s), [.SendTLSData sid input])
      | m => (.error (.InvalidRuntimeManagerMessage m), [.SendTLSData sid input])

/-- A well-formed reply script for the drain loop: for each frame `(d, a)`
the enclave answers TLSDataNeeded(true) and then TLSData(d, a), and finally
answers TLSDataNeeded(false). -/
def drainScript (frames : List (List Nat × Bool)) : List RuntimeManagerMessage :=
  frames.flatMap (fun f => [.TLSDataNeeded true, .TLSData f.1 f.2]) ++
    [.TLSDataNeeded false]

/-- The request trace the drain loop produces on a well-formed script. -/
def drainSent (sid : Nat) (frames : List (List Nat × Bool)) :
    List RuntimeManagerMessage :=
  frames.flatMap (fun _ => [.GetTLSDataNeeded sid, .GetTLSData sid]) ++
    [.GetTLSDataNeeded sid]

/-- The environment one iteration of `server_tls_loop` observes: the
continue flag for the ticket (`none` when the ticket is absent from the
map), the outcome of the non-blocking `rx.try_recv()`, and the reply of
`sinaloa.tls_data` in case it is invoked. -/
structure ServerObs where
  flag : Option Bool
  recv : Option (Nat × List Nat)
  tlsReply : Except SinaloaError (Bool × Option (List (List Nat)))

/-- sinaloa-test/src/main.rs, `server_tls_loop` (lines 1482-1511), over a
script of per-iteration observations.  `none` means the script ended before
the loop decided (the loop would keep polling).  The flag is read at the top
of every iteration; a cleared or missing flag ends the loop immediately,
yielding the errors of lines 1491 and 1510 respectively. -/
def server_tls_loop : List ServerObs → Option (Except SinaloaError Unit)
  | [] => none
  | o :: rest =>
      match o.flag with
      | none => some (.error (.MissingFieldError "CONTINUE_FLAG_HASH ticket"))
      | some false => some (.error (.DirectStrError "No message arrives server"))
      | some true =>
          let p := o.recv.getD (0, [])
          if p.2.length > 0 then
            match o.tlsReply with
            | .error e => some (.error e)
            | .ok (active_flag, _) =>
                if active_flag then server_tls_loop rest else some (.ok ())
          else server_tls_loop rest

/-- The environment one iteration of the polling loop of `client_tls_send`
observes: the continue flag for the ticket, the outcome of `rx.try_recv()`,
the rustls session predicates, a possible failure of the TLS processing
calls guarded by `?`, and the plaintext bytes `read_to_end` yields after
processing. -/
structure ClientObs where
  flag : Option Bool
  recv : Option (List Nat)
  handshaking : Bool
  wantsRead : Bool
  wantsWrite : Bool
  procError : Option SinaloaError
  readBytes : List Nat

/-- sinaloa-test/src/main.rs, `client_tls_send` (lines 1513-1558): the
polling loop that follows the initial TLS write, over a script of
per-iteration observations.  The flag is read at the top of every
iteration; a cleared or missing flag ends the loop immediately, yielding
the errors of lines 1532 and 1556 respectively. -/
def client_tls_send : List ClientObs → Option (Except SinaloaError (List Nat))
  | [] => none
  | o :: rest =>
      match o.flag with
      | none => some (.error (.MissingFieldError "CONTINUE_FLAG_HASH ticket"))
      | some false => some (.error (.DirectStrError "Terminate due to server crush"))
      | some true =>
          if o.recv.isSome && (!o.handshaking || o.wantsRead) then
            match o.procError with
            | some e => some (.error e)
            | none =>
                if o.readBytes.length > 0 then some (.ok o.readBytes)
                else client_tls_send rest
          else if o.wantsWrite then
            match o.procError with
            | some e => some (.error e)
            | none => client_tls_send rest
          else client_tls_send rest

/-- sinaloa-test/src/main.rs, lines 785-790 and 1182-1187: both spawned
threads wrap their body in `map_err` so that any error inserts `false` for
the ticket into CONTINUE_FLAG_HASH before the error is propagated.  The
flag map is modelled as a function from tickets to optional flags. -/
def thread_result_with_flag {α : Type} (ticket : Nat)
    (body : Except SinaloaError α) (flags : Nat → Option Bool) :
    Except SinaloaError α × (Nat → Option Bool) :=
  match body with
  | .error e => (.error e, fun t => if t = ticket then some false else flags t)
  | .ok a => (.ok a, flags)

/-- sinaloa-test/src/main.rs, `setup` (lines 124-142): under the NEXT_TICKET
mutex, return the current counter value and increment the counter.  The
counter is a u32, hence the modulus. -/
def setup (next : Nat) : Nat × Nat :=
  (next, (next + 1) % 2 ^ 32)

/-- The NEXT_TICKET counter value after `k` calls to `setup`, starting from
the initial value 0 (Mutex::new(0), main.rs line 121). -/
def next_ticket_state : Nat → Nat
  | 0 => 0
  | k + 1 => (setup (next_ticket_state k)).2

/-- The ticket returned by the (k+1)-st call to `setup` in the process. -/
def ticket_at (k : Nat) : Nat :=
  (setup (next_ticket_state k)).1

/-! ### Theorems -/

/-- Claim C1 (status: code_bug).  The failing input: the verifier's decoded
payload is 118 zero bytes, the drawn challenge is 32 zero bytes (so the
echoed challenge at bytes [8,40) matches), and the policy's expected
enclave measurement is 32 bytes of 0x01 (so the reported measurement at
bytes [47,79) mismatches).  The claim and spec say this failure is a
measurement-mismatch error (AttestationMismatch with the measurement
field); the code instead raises a MismatchError labelled
"attestation_flow challenge" (main.rs line 1669 copies the label of the
challenge check at line 1661), carrying the measurement slices as payload.
No fingerprint is returned. -/
theorem attestation_flow_measurement_mislabel :
    subslice (List.replicate 118 0) 8 40 = List.replicate 32 0
    ∧ attestation_flow (List.replicate 32 0) (List.replicate 32 1)
        (List.replicate 118 0)
      = .error (.MismatchError "attestation_flow challenge"
          (List.replicate 32 0) (List.replicate 32 1)) := by
  exact ⟨by decide, rfl⟩

/-- Claim C2: a session id of 0 returned by new_tls_session is rejected
with a protocol error at both call sites (test_template and
init_sinaloa_and_tls_session), and every id handed on to the caller equals
the allocated id and is nonzero. -/
theorem session_id_zero_rejected (id : Nat) :
    (id = 0 →
      test_template_session_check id = .error (.MissingFieldError "client_session_id")
      ∧ init_sinaloa_and_tls_session id = .error (.MissingFieldError "Session id"))
    ∧ (∀ j, test_template_session_check id = .ok j → j = id ∧ j ≠ 0)
    ∧ (∀ j, init_sinaloa_and_tls_session id = .ok j → j = id ∧ j ≠ 0)
    ∧ (id ≠ 0 →
      test_template_session_check id = .ok id
      ∧ init_sinaloa_and_tls_session id = .ok id) := by
  refine ⟨?_, ?_, ?_, ?_⟩
  · rintro rfl
    exact ⟨rfl, rfl⟩
  · intro j hj
    by_cases h : id = 0
    · subst h
      simp [test_template_session_check] at hj
    · simp only [test_template_session_check, if_neg h, Except.ok.injEq] at hj
      exact ⟨hj.symm, hj ▸ h⟩
  · intro j hj
    by_cases h : id = 0
    · subst h
      simp [init_sinaloa_and_tls_session] at hj
    · simp only [init_sinaloa_and_tls_session, if_pos h, Except.ok.injEq] at hj
      exact ⟨hj.symm, hj ▸ h⟩
  · intro h
    exact ⟨by simp [test_template_session_check, h], by simp [init_sinaloa_and_tls_session, h]⟩

/-- Witness for C2 at the concrete ids 0 and 7. -/
theorem session_id_zero_rejected_witness :
    (test_template_session_check 0 = .error (.MissingFieldError "client_session_id")
      ∧ init_sinaloa_and_tls_session 0 = .error (.MissingFieldError "Session id"))
    ∧ (test_template_session_check 7 = .ok 7
      ∧ init_sinaloa_and_tls_session 7 = .ok 7) :=
  ⟨(session_id_zero_rejected 0).1 rfl, (session_id_zero_rejected 7).2.2.2 (by decide)⟩

/-- Claim C5: the phase bytes are Initial=0, DataLoading=1, StreamLoading=2,
ReadyToExecute=3, Finished=4, and check_enclave_state(expected) succeeds
exactly when the reply carries a state field equal to the one-byte vector
[expected]; any other state value gives a mismatch error and an absent
state field gives a missing-field error. -/
theorem check_enclave_state_spec (expecting : Nat) (r : StateResponse) :
    (check_enclave_state expecting r = .ok () ↔ r.state = some [expecting])
    ∧ (∀ st, r.state = some st → st ≠ [expecting] →
        check_enclave_state expecting r =
          .error (.MismatchError "parsed.get_state().get_state().to_vec()" st [expecting]))
    ∧ (r.state = none →
        check_enclave_state expecting r = .error (.MissingFieldError "enclave state in response"))
    ∧ ENCLAVE_STATE_INITIAL = 0 ∧ ENCLAVE_STATE_DATA_SOURCES_LOADING = 1
    ∧ ENCLAVE_STATE_STREAM_SOURCE_SLOADING = 2 ∧ ENCLAVE_STATE_READY_TO_EXECUTE = 3
    ∧ ENCLAVE_STATE_FINISHED_EXECUTING = 4 := by
  obtain ⟨stOpt⟩ := r
  refine ⟨?_, ?_, ?_, rfl, rfl, rfl, rfl, rfl⟩
  · cases stOpt with
    | none => simp [check_enclave_state]
    | some st =>
        by_cases h : st = [expecting] <;>
          simp [check_enclave_state, h]
  · intro st hst hne
    cases stOpt with
    | none => simp at hst
    | some st2 =>
        simp only [Option.some.injEq] at hst
        subst hst
        simp [check_enclave_state, hne]
  · intro h
    cases stOpt with
    | none => rfl
    | some st => simp at h

/-- Witness for C5 at the ready-to-execute phase byte. -/
theorem check_enclave_state_spec_witness :
    check_enclave_state ENCLAVE_STATE_READY_TO_EXECUTE ⟨some [3]⟩ = .ok ()
    ∧ check_enclave_state 3 ⟨some [4]⟩ =
        .error (.MismatchError "parsed.get_state().get_state().to_vec()" [4] [3])
    ∧ check_enclave_state 3 ⟨none⟩ = .error (.MissingFieldError "enclave state in response") :=
  ⟨(check_enclave_state_spec ENCLAVE_STATE_READY_TO_EXECUTE ⟨some [3]⟩).1.mpr rfl,
   (check_enclave_state_spec 3 ⟨some [4]⟩).2.1 [4] rfl (by decide),
   (check_enclave_state_spec 3 ⟨none⟩).2.2.1 rfl⟩

/-- Claim C7: close sends Reset and returns Ok(true) exactly on a
Status(Success) reply; any other status and any non-Status reply is an
error; and drop swallows a failing close: the drop log is empty exactly
when close succeeded, and otherwise holds precisely the swallowed error. -/
theorem close_reset_spec :
    (∀ reply, close reply = .ok true ↔ reply = .Status .Success)
    ∧ (∀ reply b, close reply = .ok b → b = true)
    ∧ (∀ s, s ≠ NitroStatus.Success → close (.Status s) = .error (.NitroStatus s))
    ∧ (∀ m, m.isStatus = false → close m = .error (.InvalidRuntimeManagerMessage m))
    ∧ (∀ reply, drop_close reply = [] ↔ close reply = .ok true)
    ∧ (∀ reply e, close reply = .error e → drop_close reply = [e]) := by
  have hok : ∀ reply, close reply = .ok true ↔ reply = .Status .Success := by
    intro reply
    cases reply <;> simp [close]
    case Status s => cases s <;> simp
  refine ⟨hok, ?_, ?_, ?_, ?_, ?_⟩
  · intro reply b hb
    cases reply <;> simp [close] at hb
    case Status s =>
      cases s <;> simp at hb
      exact hb
  · intro s hs
    cases s
    · exact absurd rfl hs
    · rfl
    · rfl
  · intro m hm
    cases m <;> first
      | rfl
      | simp [RuntimeManagerMessage.isStatus] at hm
  · intro reply
    cases reply <;> simp [close, drop_close]
    case Status s => cases s <;> simp
  · intro reply e he
    simp [drop_close, he]

/-- Witness for C7 at a successful, a failed and a malformed reply. -/
theorem close_reset_spec_witness :
    close (.Status .Success) = .ok true
    ∧ close (.Status .Fail) = .error (.NitroStatus .Fail)
    ∧ close .GetEnclaveCert = .error (.InvalidRuntimeManagerMessage .GetEnclaveCert)
    ∧ drop_close (.Status .Fail) = [.NitroStatus .Fail] :=
  ⟨(close_reset_spec.1 (.Status .Success)).mpr rfl,
   close_reset_spec.2.2.1 .Fail (by decide),
   close_reset_spec.2.2.2.1 .GetEnclaveCert rfl,
   close_reset_spec.2.2.2.2.2 (.Status .Fail) (.NitroStatus .Fail) rfl⟩

/-- Claim C9: close_tls_session returns Ok(()) on any Status reply, success
or failure alike (so a failed close is indistinguishable from a successful
one at this interface), and errors only on a non-Status reply. -/
theorem close_tls_session_spec (sid : Nat) :
    (∀ reply, close_tls_session sid reply = .ok () ↔ reply.isStatus = true)
    ∧ close_tls_session sid (.Status .Fail) = .ok ()
    ∧ close_tls_session sid (.Status .Fail) = close_tls_session sid (.Status .Success)
    ∧ (∀ reply, reply.isStatus = false →
        close_tls_session sid reply = .error (.NitroStatus .Fail)) := by
  refine ⟨?_, rfl, rfl, ?_⟩
  · intro reply
    cases reply <;> simp [close_tls_session, RuntimeManagerMessage.isStatus]
  · intro reply hm
    cases reply <;> first
      | rfl
      | simp [RuntimeManagerMessage.isStatus] at hm

/-- Witness for C9 at a failure status and at a non-Status reply. -/
theorem close_tls_session_spec_witness :
    close_tls_session 5 (.Status .Fail) = .ok ()
    ∧ close_tls_session 5 .GetEnclaveName = .error (.NitroStatus .Fail) :=
  ⟨((close_tls_session_spec 5).1 (.Status .Fail)).mpr rfl,
   (close_tls_session_spec 5).2.2.2 .GetEnclaveName rfl⟩

/-- Each hex digit produced by hexDigit on a nibble is a lowercase hex
character. -/
theorem hexDigit_mem_lower (n : Nat) (h : n < 16) :
    hexDigit n ∈ ("0123456789abcdef").data := by
  interval_cases n <;> decide

/-- Every character of a hex_encode output is a lowercase hex character. -/
theorem hex_encode_lower (bytes : List Nat) :
    ∀ c ∈ (hex_encode bytes).data, c ∈ ("0123456789abcdef").data := by
  intro c hc
  have hc2 : c ∈ bytes.flatMap hex_encode_byte := hc
  obtain ⟨b, _, hcb⟩ := List.mem_flatMap.mp hc2
  have hmod : b % 256 < 256 := Nat.mod_lt _ (by norm_num)
  have h16a : b % 256 / 16 < 16 := by omega
  have h16b : b % 256 % 16 < 16 := Nat.mod_lt _ (by norm_num)
  simp only [hex_encode_byte, List.mem_cons, List.not_mem_nil, or_false] at hcb
  rcases hcb with h | h
  · exact h ▸ hexDigit_mem_lower _ h16a
  · exact h ▸ hexDigit_mem_lower _ h16b

/-- Claim C3: the digest the client expects is the lowercase hex encoding
of SHA-256 of the raw policy bytes (read_policy), and check_policy_hash
succeeds exactly when a successful reply carries a digest string equal to
that value; a disagreement yields a mismatch error holding both digests,
and a non-success status yields a response error. -/
theorem check_policy_hash_spec (sha256 : List Nat → List Nat)
    (policy_json : List Nat) (r : PolicyHashResponse) :
    (check_policy_hash (read_policy_hash sha256 policy_json) r = .ok () ↔
      r.status = .SUCCESS ∧ r.policy_hash = hex_encode (sha256 policy_json))
    ∧ (r.status = .SUCCESS → r.policy_hash ≠ hex_encode (sha256 policy_json) →
        check_policy_hash (read_policy_hash sha256 policy_json) r =
          .error (.MismatchStrError "request_policy_hash" r.policy_hash
            (hex_encode (sha256 policy_json))))
    ∧ (r.status ≠ .SUCCESS →
        check_policy_hash (read_policy_hash sha256 policy_json) r =
          .error (.ResponseError "check_policy_hash parse_mexico_city_response" r.status))
    ∧ (∀ c ∈ (read_policy_hash sha256 policy_json).data,
        c ∈ ("0123456789abcdef").data) := by
  refine ⟨?_, ?_, ?_, hex_encode_lower (sha256 policy_json)⟩
  · by_cases hs : r.status = .SUCCESS
    · by_cases hh : r.policy_hash = hex_encode (sha256 policy_json) <;>
        simp [check_policy_hash, read_policy_hash, hs, hh]
    · simp [check_policy_hash, read_policy_hash, hs]
  · intro hs hh
    simp [check_policy_hash, read_policy_hash, hs, hh]
  · intro hs
    simp [check_policy_hash, read_policy_hash, hs]

/-- Witness for C3: SHA-256 stubbed to the two bytes 0xde 0xad, whose
lowercase hex encoding is the string dead. -/
theorem check_policy_hash_spec_witness :
    check_policy_hash (read_policy_hash (fun _ => [222, 173]) []) ⟨.SUCCESS, "dead"⟩ = .ok ()
    ∧ check_policy_hash (read_policy_hash (fun _ => [222, 173]) []) ⟨.SUCCESS, "beef"⟩ =
        .error (.MismatchStrError "request_policy_hash" "beef" (hex_encode [222, 173]))
    ∧ check_policy_hash (read_policy_hash (fun _ => [222, 173]) []) ⟨.FAIL, "dead"⟩ =
        .error (.ResponseError "check_policy_hash parse_mexico_city_response" .FAIL) :=
  ⟨(check_policy_hash_spec (fun _ => [222, 173]) [] ⟨.SUCCESS, "dead"⟩).1.mpr
      ⟨rfl, by decide⟩,
   (check_policy_hash_spec (fun _ => [222, 173]) [] ⟨.SUCCESS, "beef"⟩).2.1
      rfl (by decide),
   (check_policy_hash_spec (fun _ => [222, 173]) [] ⟨.FAIL, "dead"⟩).2.2.1
      (by decide)⟩

/-- Claim C6: on either cooperating thread an error inserts false for the
ticket into the continue-flag map (the map_err wrappers around
server_tls_loop and the client body), and each of server_tls_loop and
client_tls_send re-reads the flag at the top of every iteration and, the
moment the flag is cleared or missing, exits with an error without
touching its channel again. -/
theorem continue_flag_coordination :
    (∀ (α : Type) (ticket : Nat) (body : Except SinaloaError α)
        (flags : Nat → Option Bool) (e : SinaloaError), body = .error e →
      (thread_result_with_flag ticket body flags).2 ticket = some false
      ∧ (thread_result_with_flag ticket body flags).1 = .error e)
    ∧ (∀ o rest, o.flag = some false →
        server_tls_loop (o :: rest) =
          some (.error (.DirectStrError "No message arrives server")))
    ∧ (∀ o rest, o.flag = some false →
        client_tls_send (o :: rest) =
          some (.error (.DirectStrError "Terminate due to server crush"))) := by
  refine ⟨?_, ?_, ?_⟩
  · intro α ticket body flags e he
    subst he
    exact ⟨by simp [thread_result_with_flag], rfl⟩
  · intro o rest ho
    simp [server_tls_loop, ho]
  · intro o rest ho
    simp [client_tls_send, ho]

/-- Witness for C6 at a concrete failing body and concrete cleared-flag
iterations. -/
theorem continue_flag_coordination_witness :
    (thread_result_with_flag 0 (.error (.DirectStrError "boom") : Except SinaloaError Nat)
        (fun _ => some true)).2 0 = some false
    ∧ server_tls_loop [⟨some false, none, .ok (true, none)⟩] =
        some (.error (.DirectStrError "No message arrives server"))
    ∧ client_tls_send [⟨some false, none, false, false, false, none, []⟩] =
        some (.error (.DirectStrError "Terminate due to server crush")) :=
  ⟨(continue_flag_coordination.1 Nat 0 _ (fun _ => some true)
      (.DirectStrError "boom") rfl).1,
   continue_flag_coordination.2.1 ⟨some false, none, .ok (true, none)⟩ [] rfl,
   continue_flag_coordination.2.2 ⟨some false, none, false, false, false, none, []⟩ [] rfl⟩

/-- The NEXT_TICKET counter after k calls is k reduced modulo 2^32. -/
theorem next_ticket_state_eq (k : Nat) : next_ticket_state k = k % 2 ^ 32 := by
  have hpow : (2 : Nat) ^ 32 = 4294967296 := by norm_num
  induction k with
  | zero => rfl
  | succ n ih =>
      have hstep : next_ticket_state (n + 1) = (next_ticket_state n + 1) % 2 ^ 32 := rfl
      rw [hstep, ih, hpow]
      omega

/-- Claim C8: each setup call returns the current counter value and
increments the counter by one, so the sequence of returned tickets is
strictly increasing and any two calls within the 32-bit range return
distinct tickets. -/
theorem setup_tickets_strictly_increasing (i j : Nat) (hij : i < j) (hj : j < 2 ^ 32) :
    ticket_at i < ticket_at j ∧ ticket_at i ≠ ticket_at j
    ∧ ticket_at i = i ∧ ticket_at j = j
    ∧ (setup (next_ticket_state i)).2 = (ticket_at i + 1) % 2 ^ 32 := by
  have hi : ticket_at i = i := by
    show next_ticket_state i = i
    rw [next_ticket_state_eq]
    exact Nat.mod_eq_of_lt (lt_trans hij hj)
  have hjeq : ticket_at j = j := by
    show next_ticket_state j = j
    rw [next_ticket_state_eq]
    exact Nat.mod_eq_of_lt hj
  refine ⟨by rw [hi, hjeq]; exact hij, by rw [hi, hjeq]; omega, hi, hjeq, rfl⟩

/-- Witness for C8 at the second and fourth setup calls. -/
theorem setup_tickets_strictly_increasing_witness :
    ticket_at 1 < ticket_at 3 ∧ ticket_at 1 ≠ ticket_at 3
    ∧ ticket_at 1 = 1 ∧ ticket_at 3 = 3
    ∧ (setup (next_ticket_state 1)).2 = (ticket_at 1 + 1) % 2 ^ 32 :=
  setup_tickets_strictly_increasing 1 3 (by decide) (by norm_num)

/-- One unfolding step of the drain loop on a needed-true / TLSData reply
pair. -/
theorem tls_data_drain_frame (sid : Nat) (data : List Nat) (alive : Bool)
    (rest : List RuntimeManagerMessage) (flag : Bool) (acc : List (List Nat)) :
    tls_data_drain sid (.TLSDataNeeded true :: .TLSData data alive :: rest) flag acc =
      ((tls_data_drain sid rest alive (acc ++ [data])).1,
       .GetTLSDataNeeded sid :: .GetTLSData sid ::
         (tls_data_drain sid rest alive (acc ++ [data])).2) := rfl

/-- The drain loop on a well-formed reply script accumulates exactly the
script's frames, takes the alive flag of the last frame (defaulting to the
incoming flag), and sends the expected request trace. -/
theorem tls_data_drain_script (sid : Nat) (frames : List (List Nat × Bool)) :
    ∀ (flag : Bool) (acc : List (List Nat)),
      tls_data_drain sid (drainScript frames) flag acc =
        (.ok ((frames.map Prod.snd).getLastD flag, acc ++ frames.map Prod.fst),
         drainSent sid frames) := by
  induction frames with
  | nil =>
      intro flag acc
      simp [drainScript, drainSent, tls_data_drain]
  | cons f rest ih =>
      intro flag acc
      have hscript : drainScript (f :: rest) =
          .TLSDataNeeded true :: .TLSData f.1 f.2 :: drainScript rest := by
        simp [drainScript]
      have hsent : drainSent sid (f :: rest) =
          .GetTLSDataNeeded sid :: .GetTLSData sid :: drainSent sid rest := by
        simp [drainSent]
      rw [hscript, tls_data_drain_frame, ih, hsent, List.map_cons, List.map_cons,
        List.getLastD_cons, List.append_assoc, List.singleton_append]

/-- One unfolding step of tls_data on a successful Status reply. -/
theorem tls_data_success_step (sid : Nat) (input : List Nat)
    (rest : List RuntimeManagerMessage) :
    tls_data sid input (.Status .Success :: rest) =
      (match (tls_data_drain sid rest true []).1 with
       | .ok (flag, arr) =>
           (.ok (flag, if arr.length > 0 then some arr else none) :
             Except SinaloaError (Bool × Option (List (List Nat))))
       | .error e => .error e,
       .SendTLSData sid input :: (tls_data_drain sid rest true []).2) := rfl

/-- Claim C4: tls_data errors unless the reply to SendTLSData is
Status(Success); it then polls GetTLSDataNeeded and, while true, issues
GetTLSData and accumulates the (bytes, still_alive) replies, returning all
frames with the alive flag of the last TLSData reply — a still_alive=false
frame in the middle of the burst does not stop the drain. -/
theorem tls_data_spec (sid : Nat) (input : List Nat) :
    (∀ rest s, s ≠ NitroStatus.Success →
      (tls_data sid input (.Status s :: rest)).1 = .error (.NitroStatus s))
    ∧ (∀ rest m, m.isStatus = false →
      (tls_data sid input (m :: rest)).1 = .error (.InvalidRuntimeManagerMessage m))
    ∧ (∀ frames : List (List Nat × Bool),
      tls_data sid input (.Status .Success :: drainScript frames) =
        (.ok ((frames.map Prod.snd).getLastD true,
              if frames.length > 0 then some (frames.map Prod.fst) else none),
         .SendTLSData sid input :: drainSent sid frames)) := by
  refine ⟨?_, ?_, ?_⟩
  · intro rest s hs
    cases s
    · exact absurd rfl hs
    · rfl
    · rfl
  · intro rest m hm
    cases m <;> first
      | rfl
      | simp [RuntimeManagerMessage.isStatus] at hm
  · intro frames
    rw [tls_data_success_step, tls_data_drain_script]
    simp

/-- Witness for C4: a two-frame burst whose last frame reports
still_alive=false, a failure status, and a malformed reply. -/
theorem tls_data_spec_witness :
    (tls_data 1 [9] (.Status .Success :: drainScript [([5], true), ([6], false)])).1 =
      .ok (false, some [[5], [6]])
    ∧ (tls_data 1 [9] [.Status .Fail]).1 = .error (.NitroStatus .Fail)
    ∧ (tls_data 1 [9] [.TLSSession 2]).1 =
        .error (.InvalidRuntimeManagerMessage (.TLSSession 2)) := by
  refine ⟨?_, ?_, ?_⟩
  · have h := (tls_data_spec 1 [9]).2.2 [([5], true), ([6], false)]
    rw [h]
    rfl
  · exact (tls_data_spec 1 [9]).1 [] .Fail (by decide)
  · exact (tls_data_spec 1 [9]).2.1 [] (.TLSSession 2) rfl

/-- Claim C10: when the first GetTLSDataNeeded poll after a successful
SendTLSData answers false, tls_data returns (true, none) — the alive flag
defaults to true; and in general the data option of a successful tls_data
run is never some of an empty list: it is none exactly when zero TLSData
frames were accumulated. -/
theorem tls_data_first_poll_none (sid : Nat) (input : List Nat) :
    (∀ rest, tls_data sid input (.Status .Success :: .TLSDataNeeded false :: rest) =
      (.ok (true, none), [.SendTLSData sid input, .GetTLSDataNeeded sid]))
    ∧ (∀ replies flag d, (tls_data sid input replies).1 = .ok (flag, d) →
        ∀ l, d = some l → l ≠ [])
    ∧ (∀ frames : List (List Nat × Bool), frames ≠ [] →
        (tls_data sid input (.Status .Success :: drainScript frames)).1 =
          .ok ((frames.map Prod.snd).getLastD true, some (frames.map Prod.fst))) := by
  refine ⟨?_, ?_, ?_⟩
  · intro rest
    rfl
  · intro replies flag d h l hl
    subst hl
    rcases replies with - | ⟨m, rest⟩
    · simp [tls_data] at h
    · cases m
      case Status s =>
        cases s
        case Success =>
          have h2 : (match (tls_data_drain sid rest true []).1 with
              | .ok (flag, arr) =>
                  (.ok (flag, if arr.length > 0 then some arr else none) :
                    Except SinaloaError (Bool × Option (List (List Nat))))
              | .error e => .error e) = .ok (flag, some l) := h
          rcases hdr : (tls_data_drain sid rest true []).1 with e | ⟨fl, arr⟩
          · rw [hdr] at h2
            simp at h2
          · rw [hdr] at h2
            simp only [Except.ok.injEq, Prod.mk.injEq] at h2
            obtain ⟨-, hd⟩ := h2
            by_cases harr : arr.length > 0
            · rw [if_pos harr] at hd
              obtain rfl : arr = l := Option.some.inj hd
              intro hnil
              rw [hnil] at harr
              simp at harr
            · rw [if_neg harr] at hd
              simp at hd
        case Fail => simp [tls_data] at h
        case Unimplemented => simp [tls_data] at h
      all_goals simp [tls_data] at h
  · intro frames hne
    rw [tls_data_success_step, tls_data_drain_script]
    simp [List.length_pos.mpr hne]

/-- Witness for C10 at concrete reply scripts with zero and one frame. -/
theorem tls_data_first_poll_none_witness :
    tls_data 2 [8] [.Status .Success, .TLSDataNeeded false] =
      (.ok (true, none), [.SendTLSData 2 [8], .GetTLSDataNeeded 2])
    ∧ [[7]] ≠ ([] : List (List Nat))
    ∧ (tls_data 2 [8] (.Status .Success :: drainScript [([7], true)])).1 =
        .ok (true, some [[7]]) := by
  refine ⟨(tls_data_first_poll_none 2 [8]).1 [], ?_, ?_⟩
  · exact (tls_data_first_poll_none 2 [8]).2.1
      [.Status .Success, .TLSDataNeeded true, .TLSData [7] true, .TLSDataNeeded false]
      true (some [[7]]) (by rfl) [[7]] rfl
  · have h := (tls_data_first_poll_none 2 [8]).2.2 [([7], true)] (by decide)
    simpa using h

end Veracruz
